import Mathlib

/-!
Verification of the puppetdb-python client library.

The repository consists of thin endpoint wrappers (`puppetdb/v3/metrics.py`,
`puppetdb/v4/events.py`) around a single shared request dispatcher
`puppetdb.utils._make_api_request`.  The wrappers are embedded from their
source; the dispatcher module itself is not among the sources, so it is
modelled from the specification (see the doc comments below).
-/

namespace PuppetDB

/-- JSON values, as decoded from a response body. -/
inductive Json where
  | null : Json
  | bool (b : Bool) : Json
  | num (n : Int) : Json
  | str (s : String) : Json
  | arr (elems : List Json) : Json
  | obj (fields : List (String × Json)) : Json

/-- The only HTTP method the library uses. -/
inductive Method where
  | GET : Method

/-- An outbound HTTP request as the dispatcher describes it: a verb, a full
URL, query-string parameters, the TLS verification policy and the client
certificate reference. -/
structure Request where
  method : Method
  url : String
  params : List (String × String)
  verify : Bool
  cert : List String

/-- A response body: either well-formed JSON or an undecodable raw payload. -/
inductive Body where
  | wellFormed (j : Json) : Body
  | malformed (raw : String) : Body

/-- What the network can do with one request: fail at the transport level
(DNS, TCP, TLS handshake) or deliver an HTTP response with a status code and
a body. -/
inductive HttpOutcome where
  | transportFailure (msg : String) : HttpOutcome
  | response (status : Nat) (body : Body) : HttpOutcome

/-- A remote server (or stub), as observed through single request/response
exchanges. -/
def Server : Type := Request → HttpOutcome

/-- The caller-visible error taxonomy of the dispatcher: a transport error,
an API error carrying the HTTP status and body, or a decoding error. -/
inductive ApiError where
  | transport (msg : String) : ApiError
  | httpStatus (status : Nat) (body : Body) : ApiError
  | decode (status : Nat) (raw : String) : ApiError

/-- HTTP 2xx. -/
def isSuccessStatus (status : Nat) : Bool :=
  200 ≤ status && status < 300

/-- Modelled from the spec: `puppetdb/utils.py` (the shared request helper
`_make_api_request`) is not among the sources.  Per the spec, the dispatcher
constructs the resource URL as the literal concatenation `base_url + path`
and attaches the provided parameters as query-string entries of a single GET
request carrying the given TLS options. -/
def buildRequest (api_url : String) (path : String) (verify : Bool)
    (cert : List String) (params : List (String × String)) : Request :=
  { method := Method.GET
    url := api_url ++ path
    params := params
    verify := verify
    cert := cert }

/-- Modelled from the spec: the dispatcher issues the request and maps the
outcome to a result - the decoded JSON body on a 2xx response, and otherwise
one of three distinct errors (transport failure, non-2xx API error carrying
status and body, decoding failure), none recovered locally. -/
def dispatch (server : Server) (req : Request) : Except ApiError Json :=
  match server req with
  | .transportFailure msg => .error (ApiError.transport msg)
  | .response status body =>
    if isSuccessStatus status then
      match body with
      | .wellFormed j => .ok j
      | .malformed raw => .error (ApiError.decode status raw)
    else
      .error (ApiError.httpStatus status body)

/-- Modelled from the spec: `puppetdb.utils._make_api_request`, the single
shared dispatcher.  It returns both the list of outbound requests performed
during the call (to state the exactly-one-request side effect) and the
result of the exchange. -/
def make_api_request (server : Server) (api_url : String) (path : String)
    (verify : Bool) (cert : List String) (params : List (String × String)) :
    List Request × Except ApiError Json :=
  ([buildRequest api_url path verify cert params],
   dispatch server (buildRequest api_url path verify cert params))

/-- Python's str() conversion as applied by '...\x7b0\x7d'.format(metric_name)
to an argument that is either a string or None. -/
def pyStr : Option String → String
  | none => "None"
  | some s => s

namespace v3
namespace metrics

/-- From src/puppetdb/v3/metrics.py: API_VERSION = 'v3'. -/
def API_VERSION : String := "v3"

/-- Source default of the metric_name parameter of get_metrics_by_name. -/
def metric_name_default : Option String := none

/-- From src/puppetdb/v3/metrics.py: returns
utils._make_api_request(api_url, '/metrics/mbeans', verify, cert). -/
def get_metric_names (server : Server) (api_url : String) (verify : Bool)
    (cert : List String) : List Request × Except ApiError Json :=
  make_api_request server api_url "/metrics/mbeans" verify cert []

/-- From src/puppetdb/v3/metrics.py: returns
utils._make_api_request(api_url, '/metrics/mbean/\x7b0\x7d'.format(metric_name),
verify, cert). -/
def get_metrics_by_name (server : Server) (api_url : String)
    (metric_name : Option String) (verify : Bool) (cert : List String) :
    List Request × Except ApiError Json :=
  make_api_request server api_url ("/metrics/mbean/" ++ pyStr metric_name)
    verify cert []

end metrics
end v3

namespace v4
namespace events

/-- From src/puppetdb/v4/events.py: API_VERSION = 'v3' (the v4 module keeps
the v3 constant). -/
def API_VERSION : String := "v3"

/-- Source default of the query parameter of get_events. -/
def query_default : String := ""

/-- From src/puppetdb/v4/events.py: returns
utils._make_api_request(api_url, '/events', verify, cert,
params=\x7b'query': query\x7d). -/
def get_events (server : Server) (api_url : String) (query : String)
    (verify : Bool) (cert : List String) : List Request × Except ApiError Json :=
  make_api_request server api_url "/events" verify cert [("query", query)]

end events
end v4

/-- Object identities in the Python heap model. -/
abbrev ObjId := Nat

/-- A heap fragment for the default-argument model: an allocation counter and
the list value stored in each allocated object. -/
structure Heap where
  nextId : Nat
  store : Nat → List String

/-- The heap before the module is imported. -/
def Heap.empty : Heap := { nextId := 0, store := fun _ => [] }

/-- Allocating a fresh empty list object, as Python's list() does. -/
def Heap.allocEmptyList (h : Heap) : ObjId × Heap :=
  (h.nextId,
   { nextId := h.nextId + 1
     store := fun i => if i = h.nextId then [] else h.store i })

/-- A Python function object whose def carried the default cert=list(): it
holds the object produced by evaluating that default expression. -/
structure PyFunction where
  certDefault : ObjId

/-- Executing a def statement of the form def f(..., cert=list()): Python
evaluates the default expression exactly once, when the def statement runs,
and stores the resulting object in the function object. -/
def execDefWithCertDefault (h : Heap) : PyFunction × Heap :=
  (⟨(h.allocEmptyList).1⟩, (h.allocEmptyList).2)

/-- Evaluating the cert argument of one invocation: a caller-supplied object
is used as-is; an omitted argument receives the object stored in the function
object.  No endpoint body allocates or mutates, so the heap is unchanged. -/
def callCertArg (f : PyFunction) (passed : Option ObjId) (h : Heap) :
    ObjId × Heap :=
  (match passed with
   | some o => o
   | none => f.certDefault,
   h)

/-- Importing src/puppetdb/v4/events.py runs its single def statement. -/
def eventsModuleLoad : PyFunction × Heap :=
  execDefWithCertDefault Heap.empty

/-- First invocation of get_events omitting cert, after module load. -/
def firstOmittedCall : ObjId × Heap :=
  callCertArg eventsModuleLoad.1 none eventsModuleLoad.2

/-- Second invocation of get_events omitting cert. -/
def secondOmittedCall : ObjId × Heap :=
  callCertArg eventsModuleLoad.1 none firstOmittedCall.2

/-- The certificate containers the two omitted-cert invocations operate on. -/
def twoOmittedCertCalls : ObjId × ObjId :=
  (firstOmittedCall.1, secondOmittedCall.1)

/-- Length of a JSON array. -/
def Json.arrLength : Json → Option Nat
  | .arr es => some es.length
  | _ => none

/-- First element of a JSON array. -/
def Json.firstElem : Json → Option Json
  | .arr (e :: _) => some e
  | _ => none

/-- Value of a named field of a JSON object. -/
def Json.getField : Json → String → Option Json
  | .obj fs, k => fs.lookup k
  | _, _ => none

/-- First event of the response example documented in the events module
docstring. -/
def documentedEventOne : Json :=
  Json.obj
    [("certname", Json.str "foo.localdomain"),
     ("old-value", Json.str "absent"),
     ("property", Json.str "ensure"),
     ("timestamp", Json.str "2012-10-30T19:01:05.000Z"),
     ("resource-type", Json.str "File"),
     ("resource-title", Json.str "/tmp/reportingfoo"),
     ("new-value", Json.str "file"),
     ("message", Json.str "defined content as \x27\x7bmd5\x7d49f68a5c8493ec2c0bf489821c21fc3b\x27"),
     ("report", Json.str "38ff2aef3ffb7800fe85b322280ade2b867c8d27"),
     ("status", Json.str "success"),
     ("file", Json.str "/home/user/path/to/manifest.pp"),
     ("line", Json.num 6),
     ("containment-path",
      Json.arr [Json.str "Stage[main]", Json.str "Foo",
                Json.str "File[/tmp/reportingfoo]"]),
     ("containing-class", Json.str "Foo"),
     ("run-start-time", Json.str "2012-10-30T19:00:00.000Z"),
     ("run-end-time", Json.str "2012-10-30T19:05:00.000Z"),
     ("report-receive-time", Json.str "2012-10-30T19:06:00.000Z")]

/-- Second event of the response example documented in the events module
docstring. -/
def documentedEventTwo : Json :=
  Json.obj
    [("certname", Json.str "foo.localdomain"),
     ("old-value", Json.str "absent"),
     ("property", Json.str "message"),
     ("timestamp", Json.str "2012-10-30T19:01:05.000Z"),
     ("resource-type", Json.str "Notify"),
     ("resource-title", Json.str "notify, yo"),
     ("new-value", Json.str "notify, yo"),
     ("message", Json.str "defined \x27message\x27 as \x27notify, yo\x27"),
     ("report", Json.str "38ff2aef3ffb7800fe85b322280ade2b867c8d27"),
     ("status", Json.str "success"),
     ("file", Json.str "/home/user/path/to/manifest.pp"),
     ("line", Json.num 10),
     ("containment-path",
      Json.arr [Json.str "Stage[main]", Json.str "",
                Json.str "Node[default]", Json.str "Notify[notify, yo]"]),
     ("containing-class", Json.null),
     ("run-start-time", Json.str "2012-10-30T19:00:00.000Z"),
     ("run-end-time", Json.str "2012-10-30T19:05:00.000Z"),
     ("report-receive-time", Json.str "2012-10-30T19:06:00.000Z")]

/-- The two-event array documented in the events module docstring. -/
def documentedEventsArray : Json :=
  Json.arr [documentedEventOne, documentedEventTwo]

/-- A stub server that answers every request with HTTP 200 and the documented
two-event array. -/
def eventsStubServer : Server :=
  fun _ => HttpOutcome.response 200 (Body.wellFormed documentedEventsArray)

/-- The example query of the testable-properties section, as the JSON text the
caller passes. -/
def failureStatusQuery : String := "[\x22=\x22, \x22status\x22, \x22failure\x22]"

/-- A sample base URL for concrete instantiations. -/
def exampleBaseUrl : String := "http://localhost:8080/v4"

/-- A sample request for concrete instantiations. -/
def sampleRequest : Request :=
  buildRequest exampleBaseUrl "/events" false [] [("query", "")]

/-- A stub whose transport always fails. -/
def connRefusedServer : Server :=
  fun _ => HttpOutcome.transportFailure "connection refused"

/-- A stub that always answers HTTP 404. -/
def notFoundServer : Server :=
  fun _ => HttpOutcome.response 404 (Body.malformed "not found")

/-- A stub that answers HTTP 200 with an undecodable body. -/
def badJsonServer : Server :=
  fun _ => HttpOutcome.response 200 (Body.malformed "not json")

/-- C1: for every valid (base_url, path) pair and any TLS options and
parameters, the dispatcher performs exactly one request, that request is a
GET, and its URL is the literal string concatenation of base_url and path
with no separator inserted and no normalization. -/
theorem dispatcher_single_get_literal_concat (server : Server)
    (api_url path : String) (verify : Bool) (cert : List String)
    (params : List (String × String)) :
    (make_api_request server api_url path verify cert params).1.length = 1 ∧
    (make_api_request server api_url path verify cert params).1.map Request.url
      = [api_url ++ path] ∧
    (make_api_request server api_url path verify cert params).1.map Request.method
      = [Method.GET] :=
  ⟨rfl, rfl, rfl⟩

/-- C2: for every query string q, the request issued by get_events carries
exactly one parameter entry, named query, whose value is q itself,
unmodified. -/
theorem get_events_query_forwarded_verbatim (server : Server)
    (api_url q : String) (verify : Bool) (cert : List String) :
    (v4.events.get_events server api_url q verify cert).1.map Request.params
      = [[("query", q)]] :=
  rfl

/-- C3: every endpoint function is a stateless pass-through: for all argument
values its return value equals the return value of the single shared
dispatcher applied to the same api_url, verify and cert arguments plus the
endpoint's own path (and, for get_events, its query parameter). -/
theorem endpoints_are_pass_throughs (server : Server) (api_url : String)
    (metric_name : Option String) (q : String) (verify : Bool)
    (cert : List String) :
    v3.metrics.get_metric_names server api_url verify cert
      = make_api_request server api_url "/metrics/mbeans" verify cert [] ∧
    v3.metrics.get_metrics_by_name server api_url metric_name verify cert
      = make_api_request server api_url ("/metrics/mbean/" ++ pyStr metric_name)
          verify cert [] ∧
    v4.events.get_events server api_url q verify cert
      = make_api_request server api_url "/events" verify cert [("query", q)] :=
  ⟨rfl, rfl, rfl⟩

/-- C4: the path get_metrics_by_name hands to the dispatcher is the fully
pre-formatted string "/metrics/mbean/" followed by the string form of
metric_name, interpolated before the dispatcher runs; the dispatcher adds
nothing but the base URL prefix, so the issued URL is the literal
concatenation of api_url and that pre-formatted path. -/
theorem get_metrics_by_name_path_preformatted (server : Server)
    (api_url : String) (metric_name : Option String) (verify : Bool)
    (cert : List String) :
    v3.metrics.get_metrics_by_name server api_url metric_name verify cert
      = make_api_request server api_url ("/metrics/mbean/" ++ pyStr metric_name)
          verify cert [] ∧
    (v3.metrics.get_metrics_by_name server api_url metric_name verify cert).1.map
        Request.url
      = [api_url ++ ("/metrics/mbean/" ++ pyStr metric_name)] ∧
    (∀ s : String, pyStr (some s) = s) :=
  ⟨rfl, rfl, fun _ => rfl⟩

/-- C5 counterexample: two invocations of get_events that both omit the cert
argument do not operate on independent certificate containers - they receive
one and the same list object, the one allocated when the def statement ran. -/
theorem omitted_cert_calls_not_independent :
    ¬ (twoOmittedCertCalls.1 ≠ twoOmittedCertCalls.2) := by
  decide

/-- C5 amended: the default certificate container is a single empty list
object allocated once, at function definition time, and shared by every
invocation that omits cert; it is never mutated (the heap is unchanged by
calls, and the shared object still holds the empty list), while an
explicitly passed certificate is used per call as supplied. -/
theorem cert_default_shared_but_empty (f : PyFunction) (h : Heap)
    (passed : ObjId) :
    twoOmittedCertCalls.1 = twoOmittedCertCalls.2 ∧
    twoOmittedCertCalls.1 = eventsModuleLoad.1.certDefault ∧
    secondOmittedCall.2.store twoOmittedCertCalls.1 = [] ∧
    secondOmittedCall.2 = eventsModuleLoad.2 ∧
    (callCertArg f (some passed) h).1 = passed ∧
    (callCertArg f none h).1 = f.certDefault ∧
    (callCertArg f none h).2 = h :=
  ⟨rfl, rfl, rfl, rfl, rfl, rfl, rfl⟩

/-- C6: the three failure conditions are pairwise distinguishable by the
caller: a transport failure surfaces as a transport error, a non-2xx status
as an API error carrying the status code and body, and a decoding failure as
a decoding error distinct from the other two; none is swallowed or recovered
inside the dispatcher. -/
theorem dispatcher_error_taxonomy (req : Request) (msg raw : String)
    (status : Nat) (b : Body) (hs : ¬ (200 ≤ status ∧ status < 300)) :
    dispatch (fun _ => HttpOutcome.transportFailure msg) req
      = Except.error (ApiError.transport msg) ∧
    dispatch (fun _ => HttpOutcome.response status b) req
      = Except.error (ApiError.httpStatus status b) ∧
    dispatch (fun _ => HttpOutcome.response 200 (Body.malformed raw)) req
      = Except.error (ApiError.decode 200 raw) ∧
    ApiError.transport msg ≠ ApiError.httpStatus status b ∧
    ApiError.transport msg ≠ ApiError.decode 200 raw ∧
    ApiError.httpStatus status b ≠ ApiError.decode 200 raw := by
  have hb : isSuccessStatus status = false := by
    unfold isSuccessStatus
    simp only [Bool.and_eq_false_iff, decide_eq_false_iff_not]
    omega
  refine ⟨rfl, ?_, rfl, fun h => ApiError.noConfusion h,
    fun h => ApiError.noConfusion h, fun h => ApiError.noConfusion h⟩
  simp [dispatch, hb]

/-- C6 witness: the taxonomy at a concrete request against concrete stubs
with status 404. -/
theorem dispatcher_error_taxonomy_witness :
    dispatch connRefusedServer sampleRequest
      = Except.error (ApiError.transport "connection refused") ∧
    dispatch notFoundServer sampleRequest
      = Except.error (ApiError.httpStatus 404 (Body.malformed "not found")) ∧
    dispatch badJsonServer sampleRequest
      = Except.error (ApiError.decode 200 "not json") ∧
    ApiError.transport "connection refused"
      ≠ ApiError.httpStatus 404 (Body.malformed "not found") ∧
    ApiError.transport "connection refused" ≠ ApiError.decode 200 "not json" ∧
    ApiError.httpStatus 404 (Body.malformed "not found")
      ≠ ApiError.decode 200 "not json" :=
  dispatcher_error_taxonomy sampleRequest "connection refused" "not json" 404
    (Body.malformed "not found") (by decide)

/-- C7: calling get_events with the query ["=", "status", "failure"] against
a stub returning the documented two-event array yields exactly that array,
unchanged; it has exactly two elements and the first element's status field
is the string "success" - no local filtering is applied. -/
theorem get_events_documented_example :
    (v4.events.get_events eventsStubServer exampleBaseUrl failureStatusQuery
        false []).2
      = Except.ok documentedEventsArray ∧
    documentedEventsArray.arrLength = some 2 ∧
    (documentedEventsArray.firstElem.bind (fun e => e.getField "status"))
      = some (Json.str "success") :=
  ⟨rfl, rfl, rfl⟩

/-- C8: the source default of get_events's query parameter is the empty
string, so a call omitting query still forwards a parameter set holding
exactly the entry ("query", ""): the query parameter is never omitted from
the request. -/
theorem get_events_omitted_query_still_sent (server : Server)
    (api_url : String) (verify : Bool) (cert : List String) :
    v4.events.query_default = "" ∧
    (v4.events.get_events server api_url v4.events.query_default verify
        cert).1.map Request.params
      = [[("query", "")]] :=
  ⟨rfl, rfl⟩

/-- C9: get_metrics_by_name is total in metric_name: with the source default
None it does not fail before dispatching, and it invokes the dispatcher with
the literal path "/metrics/mbean/None", the interpolation of the string form
of None into the path template. -/
theorem get_metrics_by_name_total_on_none (server : Server)
    (api_url : String) (verify : Bool) (cert : List String) :
    v3.metrics.metric_name_default = none ∧
    pyStr v3.metrics.metric_name_default = "None" ∧
    v3.metrics.get_metrics_by_name server api_url
        v3.metrics.metric_name_default verify cert
      = make_api_request server api_url "/metrics/mbean/None" verify cert [] :=
  ⟨rfl, rfl, rfl⟩

/-- C10: the v4 events module's API_VERSION constant equals the string "v3",
and for every input get_events passes the path "/events" to the dispatcher,
so the issued URL never depends on API_VERSION. -/
theorem events_api_version_unused (server : Server) (api_url q : String)
    (verify : Bool) (cert : List String) :
    v4.events.API_VERSION = "v3" ∧
    v4.events.get_events server api_url q verify cert
      = make_api_request server api_url "/events" verify cert [("query", q)] ∧
    (v4.events.get_events server api_url q verify cert).1.map Request.url
      = [api_url ++ "/events"] :=
  ⟨rfl, rfl, rfl⟩

end PuppetDB
